import Mathlib

/-
Verification development for the configuration-synchronization subsystem of
the vpn-panel repository.

The embedding below is a shallow model, translated from:
  - backend/app/models/config_sync.py      (SyncStatus, ConfigSync)
  - backend/app/models/config_version.py   (ConfigVersion)
  - backend/app/models/node.py             (Node)
  - backend/app/crud/crud_config.py        (CRUDConfig sync-record operations)
  - backend/app/services/config_sync_service.py (ConfigSyncService)

Modelling conventions:
  - Timestamps are abstracted to natural numbers (`datetime.utcnow()` becomes an
    explicit `now : Nat` parameter).
  - The database is an explicit in-memory state (`Db`): a list of nodes, a list
    of config versions, a list of sync records, plus the next sync-record
    primary key.  SQLAlchemy queries become list filters over this state.
  - The orchestration layer threads the state through per-node steps.  The
    Python code dispatches per-node asyncio tasks and gathers them with
    `return_exceptions=True`; each task touches only its own node's sync
    record, so a sequential fold over the target list is a faithful
    linearization of the fan-out.
  - Persistence failures (a raising `db.commit()` inside the CRUD layer) are
    modelled by a schedule of Boolean outcomes (`TrackerSt.sched`) consumed by
    each write; `true`/exhausted means the write commits, `false` means it
    raises.  The empty schedule therefore models fully reliable storage.
  - SQLAlchemy session semantics: all objects live in one `AsyncSession`
    identity map, so `db.get(ConfigSync, sync_id)` inside
    `update_sync_status` returns the very instance the service already holds;
    after the update (and `db.refresh`) the service's `sync` object shows the
    freshly written state.  The model accordingly reads the record back from
    the updated state wherever the Python code reads an attribute of `sync`
    after a write.
-/

namespace VpnPanel

/-- SyncStatus enum from backend/app/models/config_sync.py. -/
inductive SyncStatus where
  | pending
  | inProgress
  | completed
  | failed
  | outdated
deriving DecidableEq, Repr

/-- Node ORM model (backend/app/models/node.py), restricted to the columns the
synchronization subsystem reads: primary key, `is_active`, `is_blocked`. -/
structure Node where
  id : Nat
  isActive : Bool
  isBlocked : Bool
deriving DecidableEq, Repr

/-- ConfigVersion ORM model (backend/app/models/config_version.py), restricted
to the fields the synchronization subsystem reads. -/
structure ConfigVersion where
  id : Nat
  version : String
  checksum : String
deriving DecidableEq, Repr

/-- ConfigSync ORM model (backend/app/models/config_sync.py): the per
(config version, node) synchronization record. -/
structure SyncRecord where
  id : Nat
  configVersionId : Nat
  nodeId : Nat
  status : SyncStatus
  lastSync : Option Nat
  lastAttempt : Option Nat
  errorMessage : Option String
  retryCount : Nat
  isActive : Bool
deriving DecidableEq, Repr

/-- The relevant database state: node registry, config store, sync records,
and the next sync-record primary key. -/
structure Db where
  nodes : List Node
  configs : List ConfigVersion
  syncs : List SyncRecord
  nextSyncId : Nat
deriving DecidableEq, Repr

/-- CRUDConfig.get_sync_status: all sync records for a config version, with an
optional node filter (no `is_active` filter in the source query). -/
def get_sync_status (db : Db) (configId : Nat) (nodeId : Option Nat) :
    List SyncRecord :=
  db.syncs.filter fun r =>
    r.configVersionId == configId &&
      (match nodeId with
       | none => true
       | some nid => r.nodeId == nid)

/-- CRUDConfig.create_sync_status: inserts a fresh record.  The source sets
`last_attempt=datetime.utcnow()` already at creation, `retry_count=0`,
`is_active=True`; `last_sync` and `error_message` start as NULL. -/
def create_sync_status (db : Db) (configId nodeId : Nat) (st : SyncStatus)
    (now : Nat) : Db × SyncRecord :=
  let r : SyncRecord :=
    { id := db.nextSyncId
      configVersionId := configId
      nodeId := nodeId
      status := st
      lastSync := none
      lastAttempt := some now
      errorMessage := none
      retryCount := 0
      isActive := true }
  ({ db with syncs := db.syncs ++ [r], nextSyncId := db.nextSyncId + 1 }, r)

/-- Field updates performed by CRUDConfig.update_sync_status on the fetched
record: always set `status` and `last_attempt`; on COMPLETED also set
`last_sync`, clear `error_message` and reset `retry_count`; on FAILED set
`error_message` and (when `increment_retry`) bump `retry_count`; any other
target status touches nothing else. -/
def apply_sync_update (r : SyncRecord) (st : SyncStatus)
    (errorMessage : Option String) (incrementRetry : Bool) (now : Nat) :
    SyncRecord :=
  let r1 := { r with status := st, lastAttempt := some now }
  if st = SyncStatus.completed then
    { r1 with lastSync := some now, errorMessage := none, retryCount := 0 }
  else if st = SyncStatus.failed then
    { r1 with errorMessage := errorMessage
              retryCount := if incrementRetry then r.retryCount + 1
                            else r.retryCount }
  else r1

/-- CRUDConfig.update_sync_status: fetch by primary key and update; a missing
id is a no-op (the source returns None). -/
def update_sync_status (db : Db) (syncId : Nat) (st : SyncStatus)
    (errorMessage : Option String) (incrementRetry : Bool) (now : Nat) : Db :=
  { db with
    syncs := db.syncs.map fun r =>
      if r.id == syncId then apply_sync_update r st errorMessage incrementRetry now
      else r }

/-- Primary-key lookup of a sync record (`db.get(ConfigSync, sync_id)`). -/
def find_sync (db : Db) (syncId : Nat) : Option SyncRecord :=
  db.syncs.find? fun r => r.id == syncId

/-- Membership test used by the summary join: does an active node with this id
exist (`JOIN nodes ON nodes.id = config_syncs.node_id AND nodes.is_active`). -/
def node_is_active_in (db : Db) (nodeId : Nat) : Bool :=
  db.nodes.any fun n => n.id == nodeId && n.isActive

/-- Number of records in a list having a given status. -/
def count_status (records : List SyncRecord) (st : SyncStatus) : Nat :=
  (records.filter fun r => r.status == st).length

/-- Result shape of CRUDConfig.get_config_sync_summary. -/
structure SyncSummary where
  total_nodes : Nat
  synced_nodes : Nat
  pending_nodes : Nat
  failed_nodes : Nat
  outdated_nodes : Nat
  sync_status : String
deriving DecidableEq, Repr

/-- CRUDConfig.get_config_sync_summary: `total_nodes` counts ALL active nodes
(irrespective of any deployment target list); if zero, return the `no_nodes`
summary immediately; otherwise count this config's sync records joined to
active nodes, grouped by status, and derive the overall status:
completed if synced == total, else failed if any failed, else in_progress if
any pending/in_progress, else unknown. -/
def get_config_sync_summary (db : Db) (configId : Nat) : SyncSummary :=
  let total_nodes := (db.nodes.filter fun n => n.isActive).length
  if total_nodes = 0 then
    { total_nodes := 0, synced_nodes := 0, pending_nodes := 0
      failed_nodes := 0, outdated_nodes := 0, sync_status := "no_nodes" }
  else
    let recs := db.syncs.filter fun r =>
      r.configVersionId == configId && node_is_active_in db r.nodeId
    let synced := count_status recs SyncStatus.completed
    let pending :=
      count_status recs SyncStatus.pending + count_status recs SyncStatus.inProgress
    let failed := count_status recs SyncStatus.failed
    let outdated := count_status recs SyncStatus.outdated
    let overall :=
      if synced = total_nodes then "completed"
      else if 0 < failed then "failed"
      else if 0 < pending then "in_progress"
      else "unknown"
    { total_nodes := total_nodes, synced_nodes := synced
      pending_nodes := pending, failed_nodes := failed
      outdated_nodes := outdated, sync_status := overall }

/-- Overall-status derivation exactly as the specification words it, in its
stated priority order (used to compare the code's derivation against the
spec's). -/
def spec_overall_status (synced failed pending total : Nat) : String :=
  if synced = total ∧ 0 < total then "completed"
  else if 0 < failed then "failed"
  else if 0 < pending then "in_progress"
  else if total = 0 then "no_nodes"
  else "unknown"

/-- Node-agent HTTP response as the service observes it: the HTTP status code
and the JSON body.  `body = none` models a body that is not parseable JSON
(`response.json()` raises); `body = some s` models parsed JSON whose
`success` field is `s` (`none` when the field is absent).  A transport
error/timeout surfaces on the same exception path as a non-200 status. -/
structure NodeHttpResponse where
  httpStatus : Nat
  body : Option (Option Bool)
deriving DecidableEq, Repr

/-- Outcome classification in ConfigSyncService._sync_config_to_node: the
request is treated as successful exactly when `response.status == 200` (the
source compares to 200, not to the 2xx class) and the parsed body has
`result.get("success", False)` truthy; every other case raises inside the
try block and lands in the failure handler. -/
def sync_response_success (resp : NodeHttpResponse) : Bool :=
  resp.httpStatus == 200 &&
    (match resp.body with
     | none => false
     | some s => s.getD false)

/-- Response classification exactly as the specification words it: any non-2xx
status is a failure regardless of body; a 2xx response succeeds exactly when
the body carries `success=true` (used to compare against the code's
classification). -/
def spec_response_success (resp : NodeHttpResponse) : Bool :=
  200 ≤ resp.httpStatus && resp.httpStatus ≤ 299 && resp.body == some (some true)

/-- Error message recorded on the failure path: the except-handler stores
`str(e)` of the raised HTTPException.  The exact formatted text is irrelevant
to the claims; the model keeps a short discriminating string. -/
def response_error_text (resp : NodeHttpResponse) : String :=
  if resp.httpStatus != 200 then "http status error"
  else match resp.body with
    | none => "invalid json body"
    | some _ => "node reported failure"

/-- Tracker state threaded through the service layer: the database plus the
schedule of persistence-write outcomes.  Each CRUD write (a `db.commit()` in
the source) consumes the head of the schedule; `true` (or an exhausted
schedule) means the commit succeeds, `false` means it raises a storage
error. -/
structure TrackerSt where
  db : Db
  sched : List Bool
deriving DecidableEq, Repr

/-- Consume the next persistence-write outcome from the schedule. -/
def take_outcome (s : TrackerSt) : Bool × TrackerSt :=
  (s.sched.headD true, { s with sched := s.sched.tail })

/-- CRUDConfig.create_sync_status at the service layer: the insert commits, or
the commit raises (`none`) leaving the database unchanged. -/
def create_sync_statusE (s : TrackerSt) (configId nodeId : Nat)
    (st : SyncStatus) (now : Nat) : TrackerSt × Option SyncRecord :=
  let (ok, s1) := take_outcome s
  if ok then
    let (db2, r) := create_sync_status s1.db configId nodeId st now
    ({ s1 with db := db2 }, some r)
  else (s1, none)

/-- CRUDConfig.update_sync_status at the service layer: the update commits
(`true`), or the commit raises (`false`) leaving the database unchanged. -/
def update_sync_statusE (s : TrackerSt) (syncId : Nat) (st : SyncStatus)
    (errorMessage : Option String) (incrementRetry : Bool) (now : Nat) :
    TrackerSt × Bool :=
  let (ok, s1) := take_outcome s
  if ok then
    ({ s1 with db := update_sync_status s1.db syncId st errorMessage incrementRetry now },
     true)
  else (s1, false)

/-- ConfigSyncService._get_or_create_sync: return the first existing record
for the (config, node) pair — the lookup does not filter on the record's
`is_active` — or create a new one in PENDING. -/
def get_or_create_syncE (s : TrackerSt) (configId nodeId : Nat) (now : Nat) :
    TrackerSt × Option SyncRecord :=
  match get_sync_status s.db configId (some nodeId) with
  | r :: _ => (s, some r)
  | [] => create_sync_statusE s configId nodeId SyncStatus.pending now

/-- What one per-node asyncio task does from the orchestrator's point of view:
it returns a Boolean, or it raises (the exception is then swallowed by
`asyncio.gather(..., return_exceptions=True)`). -/
inductive TaskResult where
  | returned (success : Bool)
  | raised
deriving DecidableEq, Repr

/-- Result of one per-node synchronization step: the threaded state, the task
result, and whether the outbound network call to the node was made. -/
structure SyncNodeOutcome where
  st : TrackerSt
  result : TaskResult
  networkCalled : Bool
deriving DecidableEq, Repr

/-- Error message recorded when the failure handler catches a storage
exception raised by a tracker write inside the try block. -/
def storage_error_text : String := "storage error"

/-- ConfigSyncService._sync_config_to_node, in source order:
1. get-or-create the sync record (outside the try block: a raising create
   escapes the task);
2. inside the try block, immediately write status IN_PROGRESS;
3. only then test `if not force and sync.status == COMPLETED` — `sync` is the
   identity-mapped ORM instance just updated, so the model reads the record
   back from the updated database;
4. otherwise perform the HTTP call; classify via `sync_response_success`;
5. on success write COMPLETED, on any exception (bad response, transport
   error, or a storage error raised by a write inside the try) the handler
   writes FAILED with `increment_retry=True` and returns False; if that
   failure write itself raises, the exception escapes the task. -/
def sync_config_to_node (s : TrackerSt) (cfg : ConfigVersion) (node : Node)
    (force : Bool) (resp : NodeHttpResponse) (now : Nat) : SyncNodeOutcome :=
  match get_or_create_syncE s cfg.id node.id now with
  | (s1, none) => ⟨s1, TaskResult.raised, false⟩
  | (s1, some syncRec) =>
    let (s2, ok1) := update_sync_statusE s1 syncRec.id SyncStatus.inProgress none false now
    if !ok1 then
      let (s3, ok2) := update_sync_statusE s2 syncRec.id SyncStatus.failed
        (some storage_error_text) true now
      if ok2 then ⟨s3, TaskResult.returned false, false⟩
      else ⟨s3, TaskResult.raised, false⟩
    else
      let cur := (find_sync s2.db syncRec.id).getD syncRec
      if !force && cur.status == SyncStatus.completed then
        ⟨s2, TaskResult.returned true, false⟩
      else
        if sync_response_success resp then
          let (s3, ok2) := update_sync_statusE s2 syncRec.id SyncStatus.completed none false now
          if ok2 then ⟨s3, TaskResult.returned true, true⟩
          else
            let (s4, ok3) := update_sync_statusE s3 syncRec.id SyncStatus.failed
              (some storage_error_text) true now
            if ok3 then ⟨s4, TaskResult.returned false, true⟩
            else ⟨s4, TaskResult.raised, true⟩
        else
          let (s3, ok2) := update_sync_statusE s2 syncRec.id SyncStatus.failed
            (some (response_error_text resp)) true now
          if ok2 then ⟨s3, TaskResult.returned false, true⟩
          else ⟨s3, TaskResult.raised, true⟩

/-- How a configuration version is referenced by a caller of the service:
a ConfigVersion object, a numeric id, or a version string
(ConfigSyncService._get_config_version). -/
inductive ConfigRef where
  | byObj (cfg : ConfigVersion)
  | byId (id : Nat)
  | byVersion (version : String)
deriving DecidableEq, Repr

/-- ConfigSyncService._get_config_version: an object passes through; an id is
looked up by primary key; a non-numeric string is looked up by version. -/
def get_config_version (db : Db) : ConfigRef → Option ConfigVersion
  | ConfigRef.byObj c => some c
  | ConfigRef.byId i => db.configs.find? fun c => c.id == i
  | ConfigRef.byVersion v => db.configs.find? fun c => c.version == v

/-- ConfigSyncService._get_nodes_to_sync.  With no explicit list the source
selects the nodes with `is_active` true — and only that: the query has no
`is_blocked` filter.  (The source orders by a `priority` column that the Node
model does not define, and names `select` without importing it; ordering is
irrelevant to the properties below and is omitted.)  With an explicit list of
node ids, each id is looked up and kept only when the node exists and is
active. -/
def get_nodes_to_sync (db : Db) : Option (List Nat) → List Node
  | none => db.nodes.filter fun n => n.isActive
  | some ids => ids.filterMap fun i =>
      match db.nodes.find? fun n => n.id == i with
      | some n => if n.isActive then some n else none
      | none => none

/-- Errors raised by ConfigSyncService.deploy_config: unknown configuration
(HTTP 404) or no available nodes (HTTP 400). -/
inductive DeployError where
  | configNotFound
  | noNodes
deriving DecidableEq, Repr

/-- ConfigDeployResponse returned by deploy_config (schemas/config.py). -/
structure ConfigDeployResponse where
  job_id : String
  status : String
  message : String
  started_at : Nat
deriving DecidableEq, Repr

/-- ConfigSyncService.deploy_config:
1. resolve the config version; 404 when unknown;
2. resolve target nodes; 400 when the resolved list is empty;
3. fan out `_sync_config_to_node` per node, gathering with
   `return_exceptions=True` (per-node results and exceptions are discarded);
4. compute the sync summary and return the job descriptor carrying
   `summary["sync_status"]`. -/
def deploy_config (s : TrackerSt) (cfgRef : ConfigRef)
    (nodeIds : Option (List Nat)) (force : Bool)
    (responses : Nat → NodeHttpResponse) (now : Nat) :
    Except DeployError (TrackerSt × ConfigDeployResponse) :=
  match get_config_version s.db cfgRef with
  | none => Except.error DeployError.configNotFound
  | some cfg =>
    let targets := get_nodes_to_sync s.db nodeIds
    if targets.isEmpty then Except.error DeployError.noNodes
    else
      let s1 := targets.foldl
        (fun acc n => (sync_config_to_node acc cfg n force (responses n.id) now).st) s
      let summary := get_config_sync_summary s1.db cfg.id
      Except.ok (s1,
        { job_id := "deploy_" ++ toString cfg.id ++ "_" ++ toString now
          status := summary.sync_status
          message := "deployment started"
          started_at := now })

/-- Does a deploy_config call raise to its caller. -/
def is_deploy_error : Except DeployError (TrackerSt × ConfigDeployResponse) → Bool
  | Except.error _ => true
  | Except.ok _ => false

/-- Sync records for a (config version, node) pair, counted without regard to
liveness. -/
def pair_count (db : Db) (cfgId nodeId : Nat) : Nat :=
  db.syncs.countP fun r => r.configVersionId == cfgId && r.nodeId == nodeId

/-- Live (isActive = true) sync records for a (config version, node) pair. -/
def live_pair_count (db : Db) (cfgId nodeId : Nat) : Nat :=
  db.syncs.countP fun r => r.configVersionId == cfgId && r.nodeId == nodeId && r.isActive

section Fixtures

/-- Concrete active node used in the concrete scenarios. -/
def nodeActive1 : Node := ⟨1, true, false⟩

/-- A second concrete active node. -/
def nodeActive2 : Node := ⟨2, true, false⟩

/-- A node that is active but blocked. -/
def nodeBlockedActive : Node := ⟨3, true, true⟩

/-- Concrete configuration version. -/
def cfgV1 : ConfigVersion := ⟨1, "v1", "abc123"⟩

/-- A node-agent response: HTTP 200 with a body reporting success. -/
def respOk : NodeHttpResponse := ⟨200, some (some true)⟩

/-- A node-agent response: HTTP 500 with an unparseable body. -/
def respFail : NodeHttpResponse := ⟨500, none⟩

/-- A sync record already in COMPLETED state for (cfgV1, nodeActive1). -/
def recCompleted : SyncRecord :=
  ⟨0, 1, 1, SyncStatus.completed, some 0, some 0, none, 0, true⟩

/-- Database holding one active node with its record already COMPLETED. -/
def dbCompleted : Db := ⟨[nodeActive1], [cfgV1], [recCompleted], 1⟩

/-- The per-node step run on the already-completed record with force = false
and a succeeding node response. -/
def c1_out : SyncNodeOutcome :=
  sync_config_to_node ⟨dbCompleted, []⟩ cfgV1 nodeActive1 false respOk 7

end Fixtures

/-- C1: the spec requires that with force = false a record already in
COMPLETED is left entirely untouched and the node is not contacted.  The
source marks the record IN_PROGRESS (writing status and last_attempt) before
performing the completed-check on the very same identity-mapped instance, so
the check never fires: the node IS contacted and the record IS rewritten.
On the concrete already-completed record with a succeeding response, the
outbound call happens and the final record differs from the initial one
(last_attempt and last_sync have moved to the new timestamp). -/
theorem c1_completed_short_circuit_defeated :
    c1_out.networkCalled = true ∧
    find_sync c1_out.st.db 0 =
      some ⟨0, 1, 1, SyncStatus.completed, some 7, some 7, none, 0, true⟩ ∧
    find_sync c1_out.st.db 0 ≠ some recCompleted := by
  refine ⟨rfl, rfl, ?_⟩
  decide

/-- C5 counterexample: a node with isActive = true and isBlocked = true is in
the resolved target set of a deployment with an unspecified node list, so the
claim that a blocked node is never a sync target is false. -/
theorem c5_counterexample :
    nodeBlockedActive.isBlocked = true ∧
    nodeBlockedActive ∈ get_nodes_to_sync ⟨[nodeBlockedActive], [], [], 0⟩ none := by
  refine ⟨rfl, ?_⟩
  decide

/-- C5 (amended): for a deployment with an unspecified node list the resolved
target set contains exactly the nodes with isActive = true; isBlocked is not
consulted by the resolution query. -/
theorem c5_amended_targets_are_exactly_active_nodes (db : Db) (n : Node) :
    n ∈ get_nodes_to_sync db none ↔ (n ∈ db.nodes ∧ n.isActive = true) := by
  simp [get_nodes_to_sync, List.mem_filter]

/-- C8 counterexample: an HTTP 201 response whose body reports success = true
is classified by the spec's rule (any 2xx with success = true) as a success,
but the source compares the status against exactly 200 and classifies it as a
failure. -/
theorem c8_counterexample :
    spec_response_success ⟨201, some (some true)⟩ = true ∧
    sync_response_success ⟨201, some (some true)⟩ = false := by
  decide

/-- C8 (amended): the apply outcome is a failure for any HTTP status other
than exactly 200 regardless of body, and a success exactly when the status is
200 and the parsed body carries success = true. -/
theorem c8_amended_only_200_with_success_true :
    (∀ resp : NodeHttpResponse,
       resp.httpStatus ≠ 200 → sync_response_success resp = false) ∧
    (∀ resp : NodeHttpResponse,
       sync_response_success resp = true ↔
         (resp.httpStatus = 200 ∧ resp.body = some (some true))) := by
  constructor
  · intro resp h
    simp [sync_response_success, beq_eq_false_iff_ne.mpr h]
  · intro resp
    cases hb : resp.body with
    | none => simp [sync_response_success, hb]
    | some s =>
      cases s with
      | none => simp [sync_response_success, hb]
      | some b =>
        cases b <;> simp [sync_response_success, hb, beq_iff_eq]

/-- C8 witness: a 404 response with a success-reporting body is still a
failure. -/
theorem c8_witness :
    sync_response_success ⟨404, some (some true)⟩ = false :=
  c8_amended_only_200_with_success_true.1 ⟨404, some (some true)⟩ (by decide)

/-- Core resolution lemma: a deploy_config call raises exactly when the
configuration cannot be resolved or the resolved target list is empty, for
every persistence-failure schedule and every node-response assignment. -/
lemma deploy_error_iff (s : TrackerSt) (cfgRef : ConfigRef)
    (nodeIds : Option (List Nat)) (force : Bool)
    (responses : Nat → NodeHttpResponse) (now : Nat) :
    is_deploy_error (deploy_config s cfgRef nodeIds force responses now) = true ↔
      (get_config_version s.db cfgRef = none ∨ get_nodes_to_sync s.db nodeIds = []) := by
  rw [deploy_config]
  cases hc : get_config_version s.db cfgRef with
  | none => simp [is_deploy_error]
  | some cfg =>
    by_cases ht : (get_nodes_to_sync s.db nodeIds).isEmpty
    · simp only [ht, if_pos rfl]
      simp [is_deploy_error, List.isEmpty_iff.mp ht]
    · simp only [ht]
      simp only [Bool.false_eq_true, if_false, is_deploy_error]
      constructor
      · intro h; exact absurd h (by simp)
      · rintro (h | h)
        · exact absurd h (by simp)
        · exact absurd (List.isEmpty_iff.mpr h) (by simp [ht])

/-- C2: deploy_config raises to its caller exactly when resolution fails — the
referenced configuration version is unknown, or the resolved target node set
is empty.  The quantification is over every tracker state, every
persistence-failure schedule and every per-node response, so in particular no
per-node apply failure and no tracker-write failure inside the fan-out ever
escapes; in every non-error case an Except.ok carrying the job descriptor is
returned. -/
theorem c2_deploy_raises_iff_resolution_fails (s : TrackerSt)
    (cfgRef : ConfigRef) (nodeIds : Option (List Nat)) (force : Bool)
    (responses : Nat → NodeHttpResponse) (now : Nat) :
    is_deploy_error (deploy_config s cfgRef nodeIds force responses now) = true ↔
      (get_config_version s.db cfgRef = none ∨ get_nodes_to_sync s.db nodeIds = []) :=
  deploy_error_iff s cfgRef nodeIds force responses now

section C7Fixtures

/-- A sync record still in PENDING state for (cfgV1, nodeActive1). -/
def recPending : SyncRecord :=
  ⟨0, 1, 1, SyncStatus.pending, none, some 0, none, 0, true⟩

/-- Database with one active node holding a pending record. -/
def dbPending : Db := ⟨[nodeActive1], [cfgV1], [recPending], 1⟩

/-- Deployment run in which the first tracker write (the IN_PROGRESS update)
raises a storage error: the schedule starts with false. -/
def c7_run : Except DeployError (TrackerSt × ConfigDeployResponse) :=
  deploy_config ⟨dbPending, [false]⟩ (ConfigRef.byObj cfgV1) (some [1]) false
    (fun _ => respOk) 5

end C7Fixtures

/-- C7 counterexample: in a run whose first tracker write raises a storage
error, the per-node handler records the failure on the sync record (status
FAILED with the storage-error message) and deploy_config still returns a job
descriptor to its caller — the storage error does not propagate, contradicting
the claim. -/
theorem c7_counterexample :
    is_deploy_error c7_run = false ∧
    (c7_run.toOption.map fun p =>
        (find_sync p.1.db 0).map fun r => (r.status, r.errorMessage)) =
      some (some (SyncStatus.failed, some storage_error_text)) := by
  exact ⟨rfl, rfl⟩

/-- C7 (amended): persistence failures in SyncStateTracker writes are
contained at the node level — either recorded as a node failure by the
per-node handler or swallowed by the gather with return_exceptions=True —
and never propagate out of the orchestrator: whenever resolution succeeds,
deploy_config returns a job descriptor for every schedule of tracker-write
failures. -/
theorem c7_amended_storage_errors_contained (s : TrackerSt)
    (cfgRef : ConfigRef) (nodeIds : Option (List Nat)) (force : Bool)
    (responses : Nat → NodeHttpResponse) (now : Nat)
    (hcfg : get_config_version s.db cfgRef ≠ none)
    (hnodes : get_nodes_to_sync s.db nodeIds ≠ []) :
    is_deploy_error (deploy_config s cfgRef nodeIds force responses now) = false := by
  have h := deploy_error_iff s cfgRef nodeIds force responses now
  cases he : is_deploy_error (deploy_config s cfgRef nodeIds force responses now) with
  | false => rfl
  | true =>
    rcases h.mp he with h1 | h1
    · exact absurd h1 hcfg
    · exact absurd h1 hnodes

/-- C7 witness: the concrete failing-write run resolves its config and nodes,
and the amended theorem applies to it. -/
theorem c7_witness :
    is_deploy_error
      (deploy_config ⟨dbPending, [false]⟩ (ConfigRef.byObj cfgV1) (some [1]) false
        (fun _ => respOk) 5) = false :=
  c7_amended_storage_errors_contained ⟨dbPending, [false]⟩ (ConfigRef.byObj cfgV1)
    (some [1]) false (fun _ => respOk) 5 (by decide) (by decide)

section C9Fixtures

/-- A sync record in FAILED state carrying an error message. -/
def recFailedBoom : SyncRecord :=
  ⟨0, 1, 1, SyncStatus.failed, none, some 0, some "boom", 1, true⟩

/-- Database with one active node holding the failed record. -/
def dbFailedBoom : Db := ⟨[nodeActive1], [cfgV1], [recFailedBoom], 1⟩

end C9Fixtures

/-- C9 counterexample: marking a FAILED record IN_PROGRESS (the transition the
orchestrator performs on every new attempt) leaves the old error message in
place: the resulting record has a non-Failed status together with a non-null
errorMessage, so the claimed invariant that errorMessage is null in every
status other than Failed is not preserved by update_sync_status. -/
theorem c9_counterexample :
    (find_sync (update_sync_status dbFailedBoom 0 SyncStatus.inProgress none false 5) 0).map
        (fun r => (r.status, r.errorMessage)) =
      some (SyncStatus.inProgress, some "boom") := by
  rfl

/-- Lookup after an update: updating a record by primary key rewrites exactly
the sought record through apply_sync_update. -/
lemma find_map_update (l : List SyncRecord) (i : Nat) (r : SyncRecord)
    (g : SyncRecord → SyncRecord) (hg : ∀ x, (g x).id = x.id)
    (h : l.find? (fun x => x.id == i) = some r) :
    (l.map fun x => if x.id == i then g x else x).find? (fun x => x.id == i) =
      some (g r) := by
  induction l with
  | nil => simp at h
  | cons a l ih =>
    rw [List.find?_cons] at h
    by_cases ha : (a.id == i) = true
    · rw [ha] at h
      have har : a = r := Option.some.inj h
      subst har
      have hga : ((g a).id == i) = true := by rw [hg a]; exact ha
      rw [List.map_cons, if_pos ha, List.find?_cons, hga]
    · have ha2 : (a.id == i) = false := by
        revert ha; cases a.id == i <;> simp
      rw [ha2] at h
      rw [List.map_cons, if_neg ha, List.find?_cons, ha2]
      exact ih h

/-- apply_sync_update never changes the primary key. -/
lemma apply_sync_update_id (r : SyncRecord) (st : SyncStatus)
    (e : Option String) (inc : Bool) (t : Nat) :
    (apply_sync_update r st e inc t).id = r.id := by
  unfold apply_sync_update
  split
  · rfl
  · split <;> rfl

/-- C9 (amended): update_sync_status rewrites the targeted record through a
transition that clears errorMessage, sets lastSyncAt and resets retryCount
only on transition into Completed, stores the supplied message on transition
into Failed (so a Failed record's message is whatever the caller supplied),
and for every other target status leaves errorMessage unchanged — in
particular it is NOT cleared outside Failed, so a stale message survives a
transition into Pending/InProgress/Outdated. -/
theorem c9_amended_error_message_effects (db : Db) (syncId : Nat)
    (st : SyncStatus) (e : Option String) (inc : Bool) (t : Nat)
    (r : SyncRecord) (h : find_sync db syncId = some r) :
    find_sync (update_sync_status db syncId st e inc t) syncId =
        some (apply_sync_update r st e inc t) ∧
      (st = SyncStatus.completed →
        (apply_sync_update r st e inc t).errorMessage = none ∧
        (apply_sync_update r st e inc t).lastSync = some t ∧
        (apply_sync_update r st e inc t).retryCount = 0) ∧
      (st = SyncStatus.failed → (apply_sync_update r st e inc t).errorMessage = e) ∧
      (st ≠ SyncStatus.completed → st ≠ SyncStatus.failed →
        (apply_sync_update r st e inc t).errorMessage = r.errorMessage) ∧
      (apply_sync_update r st e inc t).status = st := by
  refine ⟨?_, ?_, ?_, ?_, ?_⟩
  · exact find_map_update db.syncs syncId r _ (fun x => apply_sync_update_id x st e inc t) h
  · intro hst; subst hst; simp [apply_sync_update]
  · intro hst; subst hst; simp [apply_sync_update]
  · intro h1 h2; simp [apply_sync_update, h1, h2]
  · unfold apply_sync_update; split
    · rfl
    · split <;> rfl

/-- C9 witness: the amended theorem applied to the concrete failed record and
an IN_PROGRESS transition. -/
theorem c9_witness :
    find_sync (update_sync_status dbFailedBoom 0 SyncStatus.inProgress none false 5) 0 =
      some (apply_sync_update recFailedBoom SyncStatus.inProgress none false 5) :=
  (c9_amended_error_message_effects dbFailedBoom 0 SyncStatus.inProgress none false 5
    recFailedBoom rfl).1

/-- C10: for a (config, node) pair with no existing sync record, the
get-or-create path creates a record in PENDING with retryCount 0, isActive
true, and lastAttempt already set to the creation time even though no
delivery attempt has been made. -/
theorem c10_created_record_shape (db : Db) (configId nodeId now : Nat)
    (h : get_sync_status db configId (some nodeId) = []) :
    ((get_or_create_syncE ⟨db, []⟩ configId nodeId now).2).map
        (fun r => (r.status, r.retryCount, r.isActive, r.lastAttempt)) =
      some (SyncStatus.pending, 0, true, some now) := by
  unfold get_or_create_syncE
  have hdb : (⟨db, []⟩ : TrackerSt).db = db := rfl
  rw [hdb, h]
  rfl

/-- C10 witness: the creation shape on a concrete empty tracker. -/
theorem c10_witness :
    ((get_or_create_syncE ⟨⟨[nodeActive1], [cfgV1], [], 0⟩, []⟩ 1 1 5).2).map
        (fun r => (r.status, r.retryCount, r.isActive, r.lastAttempt)) =
      some (SyncStatus.pending, 0, true, some 5) :=
  c10_created_record_shape ⟨[nodeActive1], [cfgV1], [], 0⟩ 1 1 5 rfl

/-- The source's overall-status conditional agrees with the spec's priority
order whenever the total is nonzero (the zero-total case returns early in the
source). -/
lemma overall_of_counts (synced failed pending total : Nat) (h : total ≠ 0) :
    (if synced = total then "completed"
     else if 0 < failed then "failed"
     else if 0 < pending then "in_progress"
     else "unknown") = spec_overall_status synced failed pending total := by
  unfold spec_overall_status
  have htot : 0 < total := Nat.pos_of_ne_zero h
  by_cases h1 : synced = total
  · simp [h1, htot]
  · by_cases h2 : 0 < failed
    · simp [h1, h2]
    · by_cases h3 : 0 < pending
      · simp [h1, h2, h3]
      · simp [h1, h2, h3, h]

section C3Fixtures

/-- Build an active sync record for config version 1 with a given status. -/
def mkRec (i nodeId : Nat) (st : SyncStatus) : SyncRecord :=
  ⟨i, 1, nodeId, st, none, none, none, 0, true⟩

/-- Four active nodes: three records completed, one failed. -/
def db3of4 : Db :=
  ⟨[⟨1, true, false⟩, ⟨2, true, false⟩, ⟨3, true, false⟩, ⟨4, true, false⟩], [cfgV1],
    [mkRec 0 1 SyncStatus.completed, mkRec 1 2 SyncStatus.completed,
     mkRec 2 3 SyncStatus.completed, mkRec 3 4 SyncStatus.failed], 4⟩

/-- Four active nodes, all four records completed. -/
def db4of4 : Db :=
  ⟨[⟨1, true, false⟩, ⟨2, true, false⟩, ⟨3, true, false⟩, ⟨4, true, false⟩], [cfgV1],
    [mkRec 0 1 SyncStatus.completed, mkRec 1 2 SyncStatus.completed,
     mkRec 2 3 SyncStatus.completed, mkRec 3 4 SyncStatus.completed], 4⟩

/-- No nodes at all. -/
def dbNoNodes : Db := ⟨[], [cfgV1], [], 0⟩

end C3Fixtures

/-- C3: for every database state, the summary's overall status is derived from
its own counts in exactly the spec's priority order (completed if
synced = total and total positive; else failed if any failed record; else
in_progress if any pending/in-progress record; else no_nodes if the total is
zero; else unknown); and the three quoted count patterns produce failed,
completed and no_nodes respectively. -/
theorem c3_overall_status_priority :
    (∀ (db : Db) (configId : Nat),
       (get_config_sync_summary db configId).sync_status =
         spec_overall_status
           (get_config_sync_summary db configId).synced_nodes
           (get_config_sync_summary db configId).failed_nodes
           (get_config_sync_summary db configId).pending_nodes
           (get_config_sync_summary db configId).total_nodes) ∧
    get_config_sync_summary db3of4 1 = ⟨4, 3, 0, 1, 0, "failed"⟩ ∧
    get_config_sync_summary db4of4 1 = ⟨4, 4, 0, 0, 0, "completed"⟩ ∧
    get_config_sync_summary dbNoNodes 1 = ⟨0, 0, 0, 0, 0, "no_nodes"⟩ := by
  refine ⟨?_, rfl, rfl, rfl⟩
  intro db configId
  dsimp only [get_config_sync_summary]
  split
  · simp [spec_overall_status]
  · next h => exact overall_of_counts _ _ _ _ h

/-- One per-node step on a tracker with no sync records and reliable storage,
with force = false and a failing node response: a record is created in
PENDING, marked IN_PROGRESS, the apply call fails, and the record ends FAILED
with retryCount 1 and the failure message recorded. -/
lemma step_fresh (db : Db) (cfg : ConfigVersion) (node : Node)
    (resp : NodeHttpResponse) (t : Nat)
    (hsyncs : db.syncs = []) (hF : sync_response_success resp = false) :
    (sync_config_to_node ⟨db, []⟩ cfg node false resp t).st =
      ⟨⟨db.nodes, db.configs,
        [⟨db.nextSyncId, cfg.id, node.id, SyncStatus.failed, none, some t,
          some (response_error_text resp), 1, true⟩], db.nextSyncId + 1⟩, []⟩ := by
  simp [sync_config_to_node, get_or_create_syncE, create_sync_statusE, update_sync_statusE,
    take_outcome, create_sync_status, update_sync_status, get_sync_status, find_sync,
    apply_sync_update, hsyncs, hF]

/-- One per-node step on a tracker holding exactly the pair's FAILED record,
with a failing node response: the record is reused and ends FAILED again with
retryCount incremented. -/
lemma step_failed (nodes : List Node) (configs : List ConfigVersion)
    (i nsid : Nat) (cfg : ConfigVersion) (node : Node) (resp : NodeHttpResponse)
    (t k : Nat) (ls : Option Nat) (la : Option Nat) (em : Option String)
    (hF : sync_response_success resp = false) :
    (sync_config_to_node
      ⟨⟨nodes, configs, [⟨i, cfg.id, node.id, SyncStatus.failed, ls, la, em, k, true⟩], nsid⟩, []⟩
      cfg node false resp t).st =
      ⟨⟨nodes, configs,
        [⟨i, cfg.id, node.id, SyncStatus.failed, ls, some t,
          some (response_error_text resp), k + 1, true⟩], nsid⟩, []⟩ := by
  simp [sync_config_to_node, get_or_create_syncE, create_sync_statusE, update_sync_statusE,
    take_outcome, create_sync_status, update_sync_status, get_sync_status, find_sync,
    apply_sync_update, hF]

/-- One per-node step on a tracker holding exactly the pair's FAILED record,
with a succeeding node response: the record ends COMPLETED with lastSync set,
errorMessage cleared and retryCount reset to 0. -/
lemma step_failed_success (nodes : List Node) (configs : List ConfigVersion)
    (i nsid : Nat) (cfg : ConfigVersion) (node : Node) (resp : NodeHttpResponse)
    (t k : Nat) (ls : Option Nat) (la : Option Nat) (em : Option String)
    (hS : sync_response_success resp = true) :
    (sync_config_to_node
      ⟨⟨nodes, configs, [⟨i, cfg.id, node.id, SyncStatus.failed, ls, la, em, k, true⟩], nsid⟩, []⟩
      cfg node false resp t).st =
      ⟨⟨nodes, configs,
        [⟨i, cfg.id, node.id, SyncStatus.completed, some t, some t, none, 0, true⟩], nsid⟩, []⟩ := by
  simp [sync_config_to_node, get_or_create_syncE, create_sync_statusE, update_sync_statusE,
    take_outcome, create_sync_status, update_sync_status, get_sync_status, find_sync,
    apply_sync_update, hS]

/-- After k consecutive failing attempts (k positive) on a tracker that
started empty, the pair's single record is FAILED with retryCount = k. -/
lemma c6_fail_iterate (db : Db) (cfg : ConfigVersion) (node : Node)
    (resp : NodeHttpResponse) (t : Nat)
    (hsyncs : db.syncs = []) (hF : sync_response_success resp = false) :
    ∀ k, 1 ≤ k →
      (fun s => (sync_config_to_node s cfg node false resp t).st)^[k] ⟨db, []⟩ =
        ⟨⟨db.nodes, db.configs,
          [⟨db.nextSyncId, cfg.id, node.id, SyncStatus.failed, none, some t,
            some (response_error_text resp), k, true⟩], db.nextSyncId + 1⟩, []⟩ := by
  intro k hk
  induction k with
  | zero => omega
  | succ n ih =>
    by_cases hn : n = 0
    · subst hn
      rw [Function.iterate_one]
      exact step_fresh db cfg node resp t hsyncs hF
    · have h1 : 1 ≤ n := Nat.one_le_iff_ne_zero.mpr hn
      rw [Function.iterate_succ_apply', ih h1]
      exact step_failed db.nodes db.configs db.nextSyncId (db.nextSyncId + 1) cfg node
        resp t n none (some t) (some (response_error_text resp)) hF

section C6Fixtures

/-- Fresh database with a single active node and no sync records. -/
def dbFresh1 : Db := ⟨[nodeActive1], [cfgV1], [], 0⟩

/-- First deployment: the node's apply call fails. -/
def c6_run1 : Except DeployError (TrackerSt × ConfigDeployResponse) :=
  deploy_config ⟨dbFresh1, []⟩ (ConfigRef.byId 1) (some [1]) false (fun _ => respFail) 5

/-- Tracker state after the failing deployment. -/
def c6_state1 : TrackerSt :=
  match c6_run1 with
  | Except.ok (s, _) => s
  | Except.error _ => ⟨dbFresh1, []⟩

/-- Second deployment: the node's apply call succeeds. -/
def c6_run2 : Except DeployError (TrackerSt × ConfigDeployResponse) :=
  deploy_config c6_state1 (ConfigRef.byId 1) (some [1]) false (fun _ => respOk) 9

end C6Fixtures

/-- C6 counterexample: the node fails exactly once (k = 1: after the first
deployment its record is FAILED with retryCount 1) and then succeeds; the
final record is COMPLETED with errorMessage null but retryCount 0, not the
claimed k = 1 — update_sync_status resets retry_count to 0 on transition into
COMPLETED. -/
theorem c6_counterexample :
    (find_sync c6_state1.db 0).map (fun r => (r.status, r.retryCount)) =
        some (SyncStatus.failed, 1) ∧
    (c6_run2.toOption.map fun p =>
        (find_sync p.1.db 0).map fun r => (r.status, r.retryCount, r.errorMessage)) =
      some (some (SyncStatus.completed, 0, none)) ∧
    (0 : Nat) ≠ 1 := by
  exact ⟨rfl, rfl, by decide⟩

/-- C6 (amended): if a node's apply call fails k >= 1 times and then succeeds
on a later call, the final SyncRecord has status COMPLETED, errorMessage
null, and retryCount 0 — the retry counter is reset on transition into
COMPLETED rather than retaining the number of failed attempts. -/
theorem c6_amended_retry_resets_on_success (db : Db) (cfg : ConfigVersion)
    (node : Node) (respF respS : NodeHttpResponse) (k t1 t2 : Nat)
    (hsyncs : db.syncs = [])
    (hF : sync_response_success respF = false)
    (hS : sync_response_success respS = true) (hk : 1 ≤ k) :
    (get_sync_status
        (sync_config_to_node
          ((fun s => (sync_config_to_node s cfg node false respF t1).st)^[k] ⟨db, []⟩)
          cfg node false respS t2).st.db
        cfg.id (some node.id)).map
        (fun r => (r.status, r.retryCount, r.errorMessage)) =
      [(SyncStatus.completed, 0, none)] := by
  rw [c6_fail_iterate db cfg node respF t1 hsyncs hF k hk,
    step_failed_success db.nodes db.configs db.nextSyncId (db.nextSyncId + 1) cfg node
      respS t2 k none (some t1) (some (response_error_text respF)) hS]
  simp [get_sync_status]

/-- C6 witness: two failing attempts then one success on the concrete fresh
database end in a COMPLETED record with retryCount 0. -/
theorem c6_witness :
    (get_sync_status
        (sync_config_to_node
          ((fun s => (sync_config_to_node s cfgV1 nodeActive1 false respFail 5).st)^[2]
            ⟨dbFresh1, []⟩)
          cfgV1 nodeActive1 false respOk 9).st.db
        cfgV1.id (some nodeActive1.id)).map
        (fun r => (r.status, r.retryCount, r.errorMessage)) =
      [(SyncStatus.completed, 0, none)] :=
  c6_amended_retry_resets_on_success dbFresh1 cfgV1 nodeActive1 respFail respOk 2 5 9
    rfl (by decide) (by decide) (by decide)

/-- apply_sync_update never changes which config version the record is for. -/
lemma apply_sync_update_configVersionId (r : SyncRecord) (st : SyncStatus)
    (e : Option String) (inc : Bool) (t : Nat) :
    (apply_sync_update r st e inc t).configVersionId = r.configVersionId := by
  unfold apply_sync_update
  split
  · rfl
  · split <;> rfl

/-- apply_sync_update never changes which node the record is for. -/
lemma apply_sync_update_nodeId (r : SyncRecord) (st : SyncStatus)
    (e : Option String) (inc : Bool) (t : Nat) :
    (apply_sync_update r st e inc t).nodeId = r.nodeId := by
  unfold apply_sync_update
  split
  · rfl
  · split <;> rfl

/-- apply_sync_update never changes the record's liveness flag. -/
lemma apply_sync_update_isActive (r : SyncRecord) (st : SyncStatus)
    (e : Option String) (inc : Bool) (t : Nat) :
    (apply_sync_update r st e inc t).isActive = r.isActive := by
  unfold apply_sync_update
  split
  · rfl
  · split <;> rfl

/-- update_sync_status does not touch the node registry. -/
lemma update_sync_status_nodes (db : Db) (i : Nat) (st : SyncStatus)
    (e : Option String) (inc : Bool) (t : Nat) :
    (update_sync_status db i st e inc t).nodes = db.nodes := rfl

/-- create_sync_status does not touch the node registry. -/
lemma create_sync_status_nodes (db : Db) (c0 n0 : Nat) (st : SyncStatus) (t : Nat) :
    ((create_sync_status db c0 n0 st t).1).nodes = db.nodes := rfl

/-- With an empty (reliable) schedule, a tracker write always commits and
keeps the schedule empty. -/
lemma update_sync_statusE_nil (db : Db) (i : Nat) (st : SyncStatus)
    (e : Option String) (inc : Bool) (t : Nat) :
    update_sync_statusE ⟨db, []⟩ i st e inc t =
      (⟨update_sync_status db i st e inc t, []⟩, true) := rfl

/-- Updating a record never changes any (config, node) pair count. -/
lemma pair_count_update (db : Db) (i : Nat) (st : SyncStatus)
    (e : Option String) (inc : Bool) (t : Nat) (cid nid : Nat) :
    pair_count (update_sync_status db i st e inc t) cid nid = pair_count db cid nid := by
  unfold pair_count update_sync_status
  rw [List.countP_map]
  refine List.countP_congr fun r _ => ?_
  by_cases h : (r.id == i) = true
  · simp [Function.comp, h, apply_sync_update_configVersionId, apply_sync_update_nodeId]
  · simp [Function.comp, h]

/-- Updating a record never changes any live (config, node) pair count. -/
lemma live_pair_count_update (db : Db) (i : Nat) (st : SyncStatus)
    (e : Option String) (inc : Bool) (t : Nat) (cid nid : Nat) :
    live_pair_count (update_sync_status db i st e inc t) cid nid =
      live_pair_count db cid nid := by
  unfold live_pair_count update_sync_status
  rw [List.countP_map]
  refine List.countP_congr fun r _ => ?_
  by_cases h : (r.id == i) = true
  · simp [Function.comp, h, apply_sync_update_configVersionId, apply_sync_update_nodeId,
      apply_sync_update_isActive]
  · simp [Function.comp, h]

/-- Updating a record preserves all-records-live. -/
lemma update_keeps_live (db : Db) (i : Nat) (st : SyncStatus)
    (e : Option String) (inc : Bool) (t : Nat)
    (h : ∀ r ∈ db.syncs, r.isActive = true) :
    ∀ r ∈ (update_sync_status db i st e inc t).syncs, r.isActive = true := by
  intro r hr
  unfold update_sync_status at hr
  obtain ⟨a, ha, hfa⟩ := List.mem_map.mp hr
  by_cases hai : (a.id == i) = true
  · rw [if_pos hai] at hfa
    rw [← hfa, apply_sync_update_isActive]
    exact h a ha
  · rw [if_neg hai] at hfa
    rw [← hfa]
    exact h a ha

/-- Creating a record adds one to exactly its own pair count. -/
lemma pair_count_create (db : Db) (c0 n0 : Nat) (st : SyncStatus) (t : Nat)
    (cid nid : Nat) :
    pair_count ((create_sync_status db c0 n0 st t).1) cid nid =
      pair_count db cid nid + (if c0 = cid ∧ n0 = nid then 1 else 0) := by
  unfold pair_count create_sync_status
  rw [List.countP_append]
  by_cases h : c0 = cid ∧ n0 = nid
  · simp [List.countP_cons, h.1, h.2, h]
  · rw [Decidable.not_and_iff_or_not] at h
    rcases h with h | h
    · simp only [List.countP_cons, List.countP_nil, beq_eq_false_iff_ne.mpr h]
      simp
      exact fun hc => absurd hc h
    · simp only [List.countP_cons, List.countP_nil, beq_eq_false_iff_ne.mpr h]
      simp
      exact fun _ => h

/-- Creating a record adds one to exactly its own live pair count. -/
lemma live_pair_count_create (db : Db) (c0 n0 : Nat) (st : SyncStatus) (t : Nat)
    (cid nid : Nat) :
    live_pair_count ((create_sync_status db c0 n0 st t).1) cid nid =
      live_pair_count db cid nid + (if c0 = cid ∧ n0 = nid then 1 else 0) := by
  unfold live_pair_count create_sync_status
  rw [List.countP_append]
  by_cases h : c0 = cid ∧ n0 = nid
  · simp [List.countP_cons, h.1, h.2, h]
  · rw [Decidable.not_and_iff_or_not] at h
    rcases h with h | h
    · simp only [List.countP_cons, List.countP_nil, beq_eq_false_iff_ne.mpr h]
      simp
      exact fun hc => absurd hc h
    · simp only [List.countP_cons, List.countP_nil, beq_eq_false_iff_ne.mpr h]
      simp
      exact fun _ => h

/-- Creating a record preserves all-records-live (the new record is live). -/
lemma create_keeps_live (db : Db) (c0 n0 : Nat) (st : SyncStatus) (t : Nat)
    (h : ∀ r ∈ db.syncs, r.isActive = true) :
    ∀ r ∈ ((create_sync_status db c0 n0 st t).1).syncs, r.isActive = true := by
  intro r hr
  unfold create_sync_status at hr
  rcases List.mem_append.mp hr with hr | hr
  · exact h r hr
  · rcases List.mem_singleton.mp hr with rfl
    rfl

/-- When every record is live, the live pair count is the pair count. -/
lemma live_pair_count_eq_pair_count (db : Db) (cid nid : Nat)
    (h : ∀ r ∈ db.syncs, r.isActive = true) :
    live_pair_count db cid nid = pair_count db cid nid := by
  unfold live_pair_count pair_count
  refine List.countP_congr fun r hr => ?_
  simp [h r hr]

/-- The sync-record lookup for a pair is empty exactly when the pair count is
zero. -/
lemma get_sync_status_nil_iff (db : Db) (cid nid : Nat) :
    get_sync_status db cid (some nid) = [] ↔ pair_count db cid nid = 0 := by
  constructor
  · intro h
    exact List.countP_eq_zero.mpr fun a ha => List.filter_eq_nil_iff.mp h a ha
  · intro h
    exact List.filter_eq_nil_iff.mpr fun a ha => List.countP_eq_zero.mp h a ha

/-- The summary's total is always the number of active nodes. -/
lemma summary_total_nodes (db : Db) (cid : Nat) :
    (get_config_sync_summary db cid).total_nodes =
      (db.nodes.filter fun n => n.isActive).length := by
  dsimp only [get_config_sync_summary]
  split
  · next h => exact h.symm
  · rfl


/-- Relation between database states produced by a chain of record updates:
nodes unchanged, pair counts unchanged, liveness preserved. -/
def StepInvariantFrom (dbA dbB : Db) : Prop :=
  dbB.nodes = dbA.nodes ∧
  (∀ cid nid, pair_count dbB cid nid = pair_count dbA cid nid) ∧
  ((∀ r ∈ dbA.syncs, r.isActive = true) → ∀ r ∈ dbB.syncs, r.isActive = true)

lemma step_invariant_refl (db : Db) : StepInvariantFrom db db :=
  ⟨rfl, fun _ _ => rfl, fun h => h⟩

lemma step_invariant_update (db : Db) (i : Nat) (st : SyncStatus)
    (e : Option String) (inc : Bool) (t : Nat) :
    StepInvariantFrom db (update_sync_status db i st e inc t) :=
  ⟨rfl, fun cid nid => pair_count_update db i st e inc t cid nid,
   fun h => update_keeps_live db i st e inc t h⟩

lemma step_invariant_trans {dbA dbB dbC : Db}
    (h1 : StepInvariantFrom dbA dbB) (h2 : StepInvariantFrom dbB dbC) :
    StepInvariantFrom dbA dbC :=
  ⟨h2.1.trans h1.1, fun cid nid => (h2.2.1 cid nid).trans (h1.2.1 cid nid),
   fun h => h2.2.2 (h1.2.2 h)⟩

/-- Shape of one per-node step under reliable storage: the resulting state has
an empty schedule and its database is reachable by record updates either from
the original database (when the pair already had a record) or from the
database extended with the newly created PENDING record. -/
lemma sync_step_shape (db0 : Db) (cfg : ConfigVersion) (node : Node)
    (force : Bool) (resp : NodeHttpResponse) (t : Nat) :
    ∃ db2, (sync_config_to_node ⟨db0, []⟩ cfg node force resp t).st = ⟨db2, []⟩ ∧
      ((get_sync_status db0 cfg.id (some node.id) = [] ∧
         StepInvariantFrom ((create_sync_status db0 cfg.id node.id SyncStatus.pending t).1) db2) ∨
       (get_sync_status db0 cfg.id (some node.id) ≠ [] ∧ StepInvariantFrom db0 db2)) := by
  cases hgl : get_sync_status db0 cfg.id (some node.id) with
  | nil =>
    have hg : get_or_create_syncE ⟨db0, []⟩ cfg.id node.id t =
        (⟨(create_sync_status db0 cfg.id node.id SyncStatus.pending t).1, []⟩,
         some (create_sync_status db0 cfg.id node.id SyncStatus.pending t).2) := by
      unfold get_or_create_syncE
      dsimp only
      rw [hgl]
      rfl
    rw [sync_config_to_node, hg]
    dsimp only
    rw [update_sync_statusE_nil]
    dsimp only [Bool.not_true, Bool.false_eq_true, if_false]
    set db1 := (create_sync_status db0 cfg.id node.id SyncStatus.pending t).1 with hdb1
    set r0 := (create_sync_status db0 cfg.id node.id SyncStatus.pending t).2 with hr0
    by_cases hc : (!force &&
        ((find_sync (update_sync_status db1 r0.id SyncStatus.inProgress none false t) r0.id).getD r0).status
          == SyncStatus.completed) = true
    · rw [if_pos hc]
      refine ⟨_, rfl, Or.inl ⟨rfl, ?_⟩⟩
      exact step_invariant_update db1 r0.id SyncStatus.inProgress none false t
    · rw [if_neg hc]
      by_cases hr : sync_response_success resp = true
      · rw [if_pos hr, update_sync_statusE_nil]
        dsimp only
        refine ⟨_, rfl, Or.inl ⟨rfl, ?_⟩⟩
        exact step_invariant_trans
          (step_invariant_update db1 r0.id SyncStatus.inProgress none false t)
          (step_invariant_update _ r0.id SyncStatus.completed none false t)
      · rw [if_neg hr, update_sync_statusE_nil]
        dsimp only
        refine ⟨_, rfl, Or.inl ⟨rfl, ?_⟩⟩
        exact step_invariant_trans
          (step_invariant_update db1 r0.id SyncStatus.inProgress none false t)
          (step_invariant_update _ r0.id SyncStatus.failed
            (some (response_error_text resp)) true t)
  | cons r rest =>
    have hg : get_or_create_syncE ⟨db0, []⟩ cfg.id node.id t = (⟨db0, []⟩, some r) := by
      unfold get_or_create_syncE
      dsimp only
      rw [hgl]
    rw [sync_config_to_node, hg]
    dsimp only
    rw [update_sync_statusE_nil]
    dsimp only [Bool.not_true, Bool.false_eq_true, if_false]
    by_cases hc : (!force &&
        ((find_sync (update_sync_status db0 r.id SyncStatus.inProgress none false t) r.id).getD r).status
          == SyncStatus.completed) = true
    · rw [if_pos hc]
      refine ⟨_, rfl, Or.inr ⟨List.cons_ne_nil r rest, ?_⟩⟩
      exact step_invariant_update db0 r.id SyncStatus.inProgress none false t
    · rw [if_neg hc]
      by_cases hr : sync_response_success resp = true
      · rw [if_pos hr, update_sync_statusE_nil]
        dsimp only
        refine ⟨_, rfl, Or.inr ⟨List.cons_ne_nil r rest, ?_⟩⟩
        exact step_invariant_trans
          (step_invariant_update db0 r.id SyncStatus.inProgress none false t)
          (step_invariant_update _ r.id SyncStatus.completed none false t)
      · rw [if_neg hr, update_sync_statusE_nil]
        dsimp only
        refine ⟨_, rfl, Or.inr ⟨List.cons_ne_nil r rest, ?_⟩⟩
        exact step_invariant_trans
          (step_invariant_update db0 r.id SyncStatus.inProgress none false t)
          (step_invariant_update _ r.id SyncStatus.failed
            (some (response_error_text resp)) true t)


/-- Net effect of one per-node step under reliable storage on the pair
counts: the step adds exactly one record for its own (config, node) pair when
none existed, and otherwise adds nothing; nodes and liveness are preserved. -/
lemma sync_step_props (db0 : Db) (cfg : ConfigVersion) (node : Node)
    (force : Bool) (resp : NodeHttpResponse) (t : Nat)
    (hlive : ∀ r ∈ db0.syncs, r.isActive = true) :
    (sync_config_to_node ⟨db0, []⟩ cfg node force resp t).st.db.nodes = db0.nodes ∧
    (∀ r ∈ (sync_config_to_node ⟨db0, []⟩ cfg node force resp t).st.db.syncs,
       r.isActive = true) ∧
    ∀ cid nid,
      pair_count (sync_config_to_node ⟨db0, []⟩ cfg node force resp t).st.db cid nid =
        pair_count db0 cid nid +
          (if pair_count db0 cfg.id node.id = 0 ∧ cfg.id = cid ∧ node.id = nid
           then 1 else 0) := by
  obtain ⟨db2, hout, hcase⟩ := sync_step_shape db0 cfg node force resp t
  rw [hout]
  rcases hcase with ⟨hnil, hinv⟩ | ⟨hne, hinv⟩
  · have h0 : pair_count db0 cfg.id node.id = 0 :=
      (get_sync_status_nil_iff db0 cfg.id node.id).mp hnil
    refine ⟨?_, ?_, ?_⟩
    · rw [hinv.1]
      exact create_sync_status_nodes db0 cfg.id node.id SyncStatus.pending t
    · exact hinv.2.2 (create_keeps_live db0 cfg.id node.id SyncStatus.pending t hlive)
    · intro cid nid
      rw [hinv.2.1 cid nid,
        pair_count_create db0 cfg.id node.id SyncStatus.pending t cid nid]
      congr 1
      simp [h0]
  · have h0 : pair_count db0 cfg.id node.id ≠ 0 := fun hz =>
      hne ((get_sync_status_nil_iff db0 cfg.id node.id).mpr hz)
    refine ⟨hinv.1, hinv.2.2 hlive, ?_⟩
    intro cid nid
    rw [hinv.2.1 cid nid]
    simp [h0]

/-- Net effect of the whole fan-out fold under reliable storage starting from
a live tracker: nodes unchanged, liveness preserved, and for the deployed
config each node id targeted at least once whose pair had no record before
ends with exactly one more record (none otherwise). -/
lemma deploy_fold_props (cfg : ConfigVersion) (force : Bool)
    (responses : Nat → NodeHttpResponse) (t : Nat) :
    ∀ (targets : List Node) (db0 : Db), (∀ r ∈ db0.syncs, r.isActive = true) →
      ∃ dbf,
        targets.foldl
            (fun acc n => (sync_config_to_node acc cfg n force (responses n.id) t).st)
            ⟨db0, []⟩ = ⟨dbf, []⟩ ∧
        dbf.nodes = db0.nodes ∧
        (∀ r ∈ dbf.syncs, r.isActive = true) ∧
        ∀ nid, pair_count dbf cfg.id nid =
          pair_count db0 cfg.id nid +
            (if nid ∈ targets.map Node.id ∧ pair_count db0 cfg.id nid = 0
             then 1 else 0) := by
  intro targets
  induction targets with
  | nil =>
    intro db0 hlive
    exact ⟨db0, rfl, rfl, hlive, by simp⟩
  | cons n ts ih =>
    intro db0 hlive
    obtain ⟨db2, hout, _⟩ := sync_step_shape db0 cfg n force (responses n.id) t
    have hp := sync_step_props db0 cfg n force (responses n.id) t hlive
    rw [hout] at hp
    obtain ⟨hnodes2, hlive2, hcount2⟩ := hp
    obtain ⟨dbf, hfold, hnodesf, hlivef, hcountf⟩ := ih db2 hlive2
    refine ⟨dbf, ?_, hnodesf.trans hnodes2, hlivef, ?_⟩
    · rw [List.foldl_cons, hout, hfold]
    · intro nid
      rw [hcountf nid, hcount2 cfg.id nid]
      simp only [List.map_cons, List.mem_cons]
      by_cases h1 : n.id = nid
      · subst h1
        by_cases h2 : pair_count db0 cfg.id n.id = 0 <;> simp [h2]
      · simp [h1, Ne.symm h1]


section C4Fixtures

/-- Two active nodes, fresh tracker. -/
def dbTwoNodes : Db := ⟨[nodeActive1, nodeActive2], [cfgV1], [], 0⟩

/-- Deployment of cfgV1 restricted to node 1 only, with node 2 also active. -/
def c4_run : Except DeployError (TrackerSt × ConfigDeployResponse) :=
  deploy_config ⟨dbTwoNodes, []⟩ (ConfigRef.byObj cfgV1) (some [1]) false
    (fun _ => respOk) 5

/-- Tracker state after the restricted deployment. -/
def c4_state : TrackerSt :=
  match c4_run with
  | Except.ok (s, _) => s
  | Except.error _ => ⟨dbTwoNodes, []⟩

/-- Job descriptor of the restricted deployment. -/
def c4_job : ConfigDeployResponse :=
  match c4_run with
  | Except.ok (_, j) => j
  | Except.error _ => ⟨"", "", "", 0⟩

end C4Fixtures

/-- C4 counterexample: deploying to the explicit node set N = [1] while two
nodes are active gives summarize total_nodes = 2, but the intersection of the
active-node set with N has cardinality 1 — total_nodes counts all active
nodes, not the targeted ones. -/
theorem c4_counterexample :
    (c4_run.toOption.map fun p =>
        (get_config_sync_summary p.1.db cfgV1.id).total_nodes) = some 2 ∧
    (dbTwoNodes.nodes.filter fun n => n.isActive && [1].contains n.id).length = 1 := by
  exact ⟨rfl, rfl⟩

/-- C4 (amended): after deployToNodes(v, N) on a tracker that held no sync
records, summarize(v).totalNodes equals the cardinality of the whole
active-node set (independent of N), every resolved target node has exactly
one live SyncRecord for v, and (for an explicit id list and id-unique
registry) the resolved target set is exactly the active nodes with id in N. -/
theorem c4_amended_totals_and_unique_records (db : Db) (cfg : ConfigVersion)
    (nodeIds : Option (List Nat)) (force : Bool)
    (responses : Nat → NodeHttpResponse) (now : Nat)
    (hfresh : db.syncs = [])
    (s2 : TrackerSt) (job : ConfigDeployResponse)
    (hdep : deploy_config ⟨db, []⟩ (ConfigRef.byObj cfg) nodeIds force responses now =
      Except.ok (s2, job)) :
    (get_config_sync_summary s2.db cfg.id).total_nodes =
        (db.nodes.filter fun n => n.isActive).length ∧
    (∀ n ∈ get_nodes_to_sync db nodeIds, live_pair_count s2.db cfg.id n.id = 1) ∧
    (∀ (ids : List Nat) (n : Node), nodeIds = some ids →
       (db.nodes.map Node.id).Nodup →
       (n ∈ get_nodes_to_sync db nodeIds ↔
         (n ∈ db.nodes ∧ n.isActive = true ∧ n.id ∈ ids))) := by
  have hlive0 : ∀ r ∈ db.syncs, r.isActive = true := by
    intro r hr
    rw [hfresh] at hr
    cases hr
  rw [deploy_config] at hdep
  dsimp only [get_config_version] at hdep
  by_cases ht : (get_nodes_to_sync db nodeIds).isEmpty
  · rw [if_pos ht] at hdep
    cases hdep
  · rw [if_neg ht] at hdep
    rw [Except.ok.injEq, Prod.mk.injEq] at hdep
    obtain ⟨hs2, -⟩ := hdep
    obtain ⟨dbf, hfold, hnodesf, hlivef, hcountf⟩ :=
      deploy_fold_props cfg force responses now (get_nodes_to_sync db nodeIds) db hlive0
    have hs2db : s2.db = dbf := by rw [← hs2, hfold]
    refine ⟨?_, ?_, ?_⟩
    · rw [hs2db, summary_total_nodes, hnodesf]
    · intro n hn
      have hzero : pair_count db cfg.id n.id = 0 := by
        unfold pair_count
        rw [hfresh]
        rfl
      rw [hs2db, live_pair_count_eq_pair_count dbf cfg.id n.id hlivef, hcountf n.id]
      simp [hzero, List.mem_map_of_mem Node.id hn]
    · rintro ids n rfl hnodup
      dsimp only [get_nodes_to_sync]
      constructor
      · intro hmem
        obtain ⟨i, hi, hfi⟩ := List.mem_filterMap.mp hmem
        cases hfind : db.nodes.find? fun m => m.id == i with
        | none =>
          simp only [hfind] at hfi
          cases hfi
        | some m =>
          simp only [hfind] at hfi
          by_cases hact : m.isActive = true
          · rw [if_pos hact] at hfi
            have hmn : m = n := Option.some.inj hfi
            subst hmn
            have hmi : m.id = i := by simpa using List.find?_some hfind
            exact ⟨List.mem_of_find?_eq_some hfind, hact, hmi ▸ hi⟩
          · rw [if_neg hact] at hfi
            cases hfi
      · rintro ⟨hn, hact, hid⟩
        refine List.mem_filterMap.mpr ⟨n.id, hid, ?_⟩
        cases hfind : db.nodes.find? fun m => m.id == n.id with
        | none =>
          have hnone := List.find?_eq_none.mp hfind n hn
          simp at hnone
        | some m =>
          have hm : m ∈ db.nodes := List.mem_of_find?_eq_some hfind
          have hmi : m.id = n.id := by simpa using List.find?_some hfind
          have hmn : m = n := List.inj_on_of_nodup_map hnodup hm hn hmi
          subst hmn
          simp [hact]

/-- C4 witness: the amended theorem applied to the concrete restricted
deployment gives total_nodes = number of active nodes. -/
theorem c4_witness :
    (get_config_sync_summary c4_state.db cfgV1.id).total_nodes =
      (dbTwoNodes.nodes.filter fun n => n.isActive).length :=
  (c4_amended_totals_and_unique_records dbTwoNodes cfgV1 (some [1]) false
    (fun _ => respOk) 5 rfl c4_state c4_job rfl).1

end VpnPanel
